import Mathlib

/-!
Verification of the gasless relay service (src/index.js).

The service is an Express HTTP server with three routes:
  GET  /health
  POST /api/transfer/send-with-sponsor          (direct-sponsor variant)
  POST /api/transfer/signed-transaction-gasless  (managed-fee-payer variant)

Each handler is a pure function of
  - the process configuration (environment variables read by the handler),
  - the parsed request body, and
  - the outcomes of the external calls the handler makes (the provider fetch,
    the provider co-signing call, the network broadcast, the confirmation wait).
The model returns the HTTP response together with observable effects needed by
the properties: how many provider calls were made, the event trace, and the
server-side log lines.
-/

/-- Minimal JSON value model for request and response bodies. -/
inductive Json where
  | str : String → Json
  | bool : Bool → Json
  | num : Nat → Json
  | arr : List Json → Json
  | obj : List (String × Json) → Json

/-- Field lookup in a JSON object field list (first match wins). -/
def jGet (k : String) : List (String × Json) → Option Json
  | [] => none
  | (k2, v) :: rest => if k2 = k then some v else jGet k rest

/-- Field lookup on a JSON value; non-objects have no fields. -/
def Json.lookup : Json → String → Option Json
  | Json.obj fields, k => jGet k fields
  | _, _ => none

/-- Whether a JSON value is an object carrying the given key. -/
def Json.hasKey (j : Json) (k : String) : Bool :=
  (j.lookup k).isSome

/-- An HTTP response: numeric status plus JSON body. -/
structure HttpResponse where
  status : Nat
  body : Json

/-- Process configuration: the environment variables consulted by the
handlers. An absent variable is `none`; JavaScript also treats the empty
string as falsy, which `envPresent` reproduces. -/
structure Config where
  privyAppId : Option String
  privyAppSecret : Option String
  privyFeePayerWalletId : Option String
  solanaNetwork : Option String

/-- Truthiness of an environment variable, as JavaScript `!!v` computes it:
absent and empty string are falsy. -/
def envPresent : Option String → Bool
  | none => false
  | some s => !s.isEmpty

/-- String interpolation of a possibly-absent value, as a JavaScript template
literal renders it (`undefined` for an absent variable). -/
def envStr : Option String → String
  | none => "undefined"
  | some s => s

/-- Truthiness test used on request body fields: `!field` in JavaScript is
true when the field is absent or the empty string. -/
def falsy : Option String → Bool
  | none => true
  | some s => s.isEmpty

/-- Resolution of the SOLANA_NETWORK environment variable with the JavaScript
fallback to mainnet-beta (src/index.js line 148). -/
def networkOf (cfg : Config) : String :=
  match cfg.solanaNetwork with
  | none => "mainnet-beta"
  | some s => if s.isEmpty then "mainnet-beta" else s

/-- JavaScript `x || d` on strings: the default replaces a falsy message. -/
def orDefault (m d : String) : String :=
  if m.isEmpty then d else m

/-- GET /health (src/index.js lines 26-34). The timestamp is the one
observable input read from the clock. -/
def health (cfg : Config) (timestamp : String) : HttpResponse :=
  { status := 200
    body := Json.obj
      [ ("status", Json.str "healthy")
      , ("gasSponsorship", Json.str "Privy Managed Wallet (Fee Payer)")
      , ("privyConfigured", Json.bool (envPresent cfg.privyAppId && envPresent cfg.privyAppSecret))
      , ("feePayerConfigured", Json.bool (envPresent cfg.privyFeePayerWalletId))
      , ("timestamp", Json.str timestamp) ] }

/-- Body of POST /api/transfer/send-with-sponsor. -/
structure DirectReq where
  signedTransaction : Option String
  walletAddress : Option String

/-- Outcome of the single provider fetch made by the direct-sponsor route:
a non-2xx HTTP response, a 2xx response whose body fails to parse as JSON
(`response.json()` throws with the runtime parse message), a parsed JSON-RPC
response carrying an `error` object (modelled by its stringified text), or a
parsed response carrying the result signature. -/
inductive FetchOutcome where
  | httpError (status : Nat) (text : String)
  | nonJson (parseMsg : String)
  | rpcError (errText : String)
  | ok (signature : String)

/-- Observable result of the direct-sponsor handler: the HTTP response, the
number of outbound provider calls performed, and the server-side error log. -/
structure DirectResult where
  response : HttpResponse
  providerCalls : Nat
  logs : List String

/-- POST /api/transfer/send-with-sponsor (src/index.js lines 37-106).
Validation of the body field happens first; then the provider fetch is made
unconditionally (no configuration check exists on this route), the URL being
built from PRIVY_APP_ID whether or not it is set. Every provider failure is
thrown, logged by the catch block, and converted to a 500 response whose
`error` message is the thrown message (with a fixed fallback for an empty
message). -/
def sendWithSponsor (cfg : Config) (req : DirectReq) (fetch : FetchOutcome) : DirectResult :=
  if falsy req.signedTransaction then
    { response := { status := 400, body := Json.obj [("error", Json.str "Missing signedTransaction")] }
      providerCalls := 0
      logs := [] }
  else
    let _privyRpcUrl := "https://rpc.privy.io/solana/" ++ envStr cfg.privyAppId
    match fetch with
    | FetchOutcome.httpError s t =>
      let msg := "Privy RPC error: " ++ toString s ++ " " ++ t
      { response := { status := 500
                      body := Json.obj [("error", Json.str (orDefault msg "Failed to send gasless transaction"))] }
        providerCalls := 1
        logs := ["[Error] Privy RPC error: " ++ t, "[Error] " ++ msg] }
    | FetchOutcome.nonJson m =>
      { response := { status := 500
                      body := Json.obj [("error", Json.str (orDefault m "Failed to send gasless transaction"))] }
        providerCalls := 1
        logs := ["[Error] " ++ m] }
    | FetchOutcome.rpcError e =>
      let msg := "RPC error: " ++ e
      { response := { status := 500
                      body := Json.obj [("error", Json.str (orDefault msg "Failed to send gasless transaction"))] }
        providerCalls := 1
        logs := ["[Error] " ++ msg] }
    | FetchOutcome.ok sig =>
      { response := { status := 200
                      body := Json.obj
                        [ ("data", Json.obj
                            [ ("signature", Json.str sig)
                            , ("message", Json.str "Gasless transaction sent (gas paid by Privy)")
                            , ("explorer", Json.str ("https://solscan.io/tx/" ++ sig)) ]) ] }
        providerCalls := 1
        logs := [] }

example : (sendWithSponsor ⟨none, none, none, none⟩ ⟨none, none⟩ (FetchOutcome.ok "s")).response.status = 400 := rfl
example : (sendWithSponsor ⟨none, none, none, none⟩ ⟨some "tx", none⟩ (FetchOutcome.ok "s")).providerCalls = 1 := rfl

/-- Body of POST /api/transfer/signed-transaction-gasless. -/
structure GaslessReq where
  serializedTransaction : Option String
  walletAddress : Option String

/-- Outcomes of the external steps the managed-fee-payer handler performs in
order: deserialization of the blob (`Transaction.from` may throw), the
co-signing call to the provider (returns the fully signed blob), the
broadcast to the network RPC endpoint (returns the signature), and the
confirmation wait. Each failing step throws with its message. -/
structure GaslessExt where
  deserialize : Except String Unit
  cosign : Except String String
  broadcast : Except String String
  confirm : Except String Unit

/-- Events observable in one run of the managed-fee-payer handler, in the
order they occur. -/
inductive Ev where
  | deserialize
  | cosign
  | broadcast
  | confirmWait
  | respond
deriving DecidableEq

/-- Observable result of the managed-fee-payer handler: HTTP response plus
the ordered event trace. -/
structure GaslessResult where
  response : HttpResponse
  trace : List Ev

/-- The `debug` object attached by the catch block of the managed-fee-payer
handler (src/index.js lines 181-185): boolean presence flags only, never the
configured values themselves. -/
def debugFlags (cfg : Config) : Json :=
  Json.obj
    [ ("appIdConfigured", Json.bool (envPresent cfg.privyAppId))
    , ("appSecretConfigured", Json.bool (envPresent cfg.privyAppSecret))
    , ("feePayerConfigured", Json.bool (envPresent cfg.privyFeePayerWalletId)) ]

/-- The 500 response produced by the catch block of the managed-fee-payer
handler (src/index.js lines 177-187). -/
def gaslessCatch (cfg : Config) (msg : String) : HttpResponse :=
  { status := 500
    body := Json.obj
      [ ("error", Json.str (orDefault msg "Failed to process gasless transaction"))
      , ("debug", debugFlags cfg) ] }

/-- POST /api/transfer/signed-transaction-gasless (src/index.js lines
109-188). Order of checks: body field, then app credentials, then fee-payer
wallet id; then the steps deserialize, co-sign, broadcast, confirm, respond.
Any thrown step lands in the catch block. -/
def signedTransactionGasless (cfg : Config) (req : GaslessReq) (ext : GaslessExt) : GaslessResult :=
  if falsy req.serializedTransaction then
    { response := { status := 400, body := Json.obj [("error", Json.str "Missing serializedTransaction")] }
      trace := [Ev.respond] }
  else if !(envPresent cfg.privyAppId && envPresent cfg.privyAppSecret) then
    { response := { status := 500, body := Json.obj [("error", Json.str "Privy credentials not configured")] }
      trace := [Ev.respond] }
  else if !envPresent cfg.privyFeePayerWalletId then
    { response := { status := 500
                    body := Json.obj
                      [ ("error", Json.str "Fee payer wallet ID not configured. Please set PRIVY_FEE_PAYER_WALLET_ID in your .env file")
                      , ("hint", Json.str "Get the wallet ID from your Privy dashboard under Managed Wallets") ] }
      trace := [Ev.respond] }
  else
    match ext.deserialize with
    | Except.error m =>
      { response := gaslessCatch cfg m, trace := [Ev.deserialize, Ev.respond] }
    | Except.ok _ =>
      match ext.cosign with
      | Except.error m =>
        { response := gaslessCatch cfg m, trace := [Ev.deserialize, Ev.cosign, Ev.respond] }
      | Except.ok _signedBlob =>
        match ext.broadcast with
        | Except.error m =>
          { response := gaslessCatch cfg m
            trace := [Ev.deserialize, Ev.cosign, Ev.broadcast, Ev.respond] }
        | Except.ok sig =>
          match ext.confirm with
          | Except.error m =>
            { response := gaslessCatch cfg m
              trace := [Ev.deserialize, Ev.cosign, Ev.broadcast, Ev.confirmWait, Ev.respond] }
          | Except.ok _ =>
            { response := { status := 200
                            body := Json.obj
                              [ ("data", Json.obj
                                  [ ("signature", Json.str sig)
                                  , ("message", Json.str "Gasless transaction sent (gas paid by Privy managed wallet)")
                                  , ("explorer", Json.str ("https://solscan.io/tx/" ++ sig ++
                                      (if networkOf cfg != "mainnet-beta" then "?cluster=devnet" else ""))) ]) ] }
              trace := [Ev.deserialize, Ev.cosign, Ev.broadcast, Ev.confirmWait, Ev.respond] }

/-- External outcomes in which every step succeeds, for concrete tests. -/
def extAllOk : GaslessExt :=
  { deserialize := Except.ok ()
    cosign := Except.ok "signedBlob"
    broadcast := Except.ok "sig123"
    confirm := Except.ok () }

/-- A fully configured process, mainnet network. -/
def cfgFull : Config :=
  { privyAppId := some "app-id"
    privyAppSecret := some "app-secret"
    privyFeePayerWalletId := some "wallet-id"
    solanaNetwork := none }

example :
    (signedTransactionGasless cfgFull ⟨some "tx", none⟩ extAllOk).response.status = 200 := rfl
example :
    (signedTransactionGasless { cfgFull with privyAppSecret := none } ⟨some "tx", none⟩ extAllOk).response.status = 500 := rfl

/-- Whether the first character list is a prefix of the second. -/
def charsLead : List Char → List Char → Bool
  | [], _ => true
  | _ :: _, [] => false
  | a :: as, b :: bs => a == b && charsLead as bs

/-- Whether the first character list occurs contiguously in the second. -/
def charsOccur (needle : List Char) : List Char → Bool
  | [] => needle.isEmpty
  | c :: rest => charsLead needle (c :: rest) || charsOccur needle rest

/-- Whether a URL string contains the devnet cluster query parameter. -/
def hasClusterParam (url : String) : Bool :=
  charsOccur "?cluster=devnet".data url.data

example : hasClusterParam "https://solscan.io/tx/abc?cluster=devnet" = true := rfl
example : hasClusterParam "https://solscan.io/tx/abc" = false := rfl

/-- Modelled from the spec: the batch variant of
POST /api/transfer/signed-transaction-gasless (body field `signedTx`) exists
in another revision of the source and is absent from src/index.js. Per the
spec, each blob is submitted to the provider sequentially in input order; the
first failing sub-call aborts the batch at once. `runBatch` folds over the
remaining blobs with `i` the index of the head; the oracle gives the outcome
of the sub-call at each index. It returns the batch outcome (all signatures
in order, or the failing index with its message) paired with the number of
sub-calls actually made. -/
def runBatch : List String → Nat → (Nat → Except String String) → Except (Nat × String) (List String) × Nat
  | [], _, _ => (Except.ok [], 0)
  | _tx :: rest, i, oracle =>
    match oracle i with
    | Except.error msg => (Except.error (i, msg), 1)
    | Except.ok sig =>
      match runBatch rest (i + 1) oracle with
      | (Except.ok sigs, c) => (Except.ok (sig :: sigs), c + 1)
      | (Except.error e, c) => (Except.error e, c + 1)

/-- Observable result of the batch handler: HTTP response plus the number of
provider sub-calls made. -/
structure BatchResult where
  response : HttpResponse
  providerCalls : Nat

/-- Modelled from the spec: the batch handler validates that `signedTx` is
present, is an array, and is non-empty (else a 400 `ValidationError`); it
then submits sequentially and responds all-or-nothing: on the first failure a
single 500 error naming the 1-indexed failing item, with no signatures in the
body; on full success the ordered signature list and its count. -/
def batchGasless (signedTx : Option (List String)) (oracle : Nat → Except String String) : BatchResult :=
  match signedTx with
  | none =>
    { response := { status := 400, body := Json.obj [("error", Json.str "signedTx must be a non-empty array")] }
      providerCalls := 0 }
  | some [] =>
    { response := { status := 400, body := Json.obj [("error", Json.str "signedTx must be a non-empty array")] }
      providerCalls := 0 }
  | some (tx :: rest) =>
    match runBatch (tx :: rest) 0 oracle with
    | (Except.ok sigs, c) =>
      { response := { status := 200
                      body := Json.obj
                        [ ("data", Json.obj
                            [ ("signatures", Json.arr (sigs.map Json.str))
                            , ("count", Json.num sigs.length)
                            , ("message", Json.str "Batch sent with sponsorship") ]) ] }
        providerCalls := c }
    | (Except.error (k, msg), c) =>
      { response := { status := 500
                      body := Json.obj
                        [ ("error", Json.str ("Transaction " ++ toString (k + 1) ++ " failed: " ++ msg)) ] }
        providerCalls := c }

example :
    (batchGasless (some ["a", "b"]) (fun i => Except.ok ("s" ++ toString i))).response.status = 200 := rfl
example :
    (batchGasless (some ["a", "b"]) (fun i => if i = 0 then Except.ok "s0" else Except.error "boom")).providerCalls = 2 := rfl

/-- A string that is a nonempty prefix followed by anything is nonempty. -/
theorem isEmpty_append_false (p t : String) (hp : p.isEmpty = false) :
    (p ++ t).isEmpty = false := by
  rw [Bool.eq_false_iff]
  intro h
  rw [String.isEmpty_iff, String.ext_iff, String.data_append] at h
  have hp0 : p.data = [] := (List.append_eq_nil.mp h).1
  have hpe : p = "" := String.ext hp0
  rw [hpe] at hp
  exact absurd hp (by decide)

/-- The JavaScript `m || d` fallback leaves a nonempty message unchanged. -/
theorem orDefault_nonempty (m d : String) (h : m.isEmpty = false) :
    orDefault m d = m := by
  unfold orDefault
  rw [h]
  simp

/-- C3 (confirmed): the health check returns status 200 with body field
`status` equal to "healthy" for every configuration, reports the active
sponsorship mode, and reports boolean presence flags for the required
configuration values: `privyConfigured` is the conjunction of the app id and
app secret being present, `feePayerConfigured` is the presence of the
fee-payer wallet id. The handler is a pure function of the configuration and
the clock reading, so it has no side effects and no failure mode. -/
theorem health_always_healthy (cfg : Config) (ts : String) :
    (health cfg ts).status = 200 ∧
    (health cfg ts).body.lookup "status" = some (Json.str "healthy") ∧
    (health cfg ts).body.lookup "gasSponsorship" =
      some (Json.str "Privy Managed Wallet (Fee Payer)") ∧
    (health cfg ts).body.lookup "privyConfigured" =
      some (Json.bool (envPresent cfg.privyAppId && envPresent cfg.privyAppSecret)) ∧
    (health cfg ts).body.lookup "feePayerConfigured" =
      some (Json.bool (envPresent cfg.privyFeePayerWalletId)) :=
  ⟨rfl, rfl, rfl, rfl, rfl⟩

/-- C2 (confirmed): a request lacking the required transaction field gets a
400 response whose body has an `error` key, on both submission routes; no
provider fetch is made on the direct route (zero provider calls) and no
external step runs on the managed route (the trace is just the respond
event), so such a request never gets a 200. -/
theorem missing_tx_field_400 (cfg : Config) (wallet : Option String)
    (fetch : FetchOutcome) (ext : GaslessExt) :
    ((sendWithSponsor cfg ⟨none, wallet⟩ fetch).response.status = 400 ∧
     (sendWithSponsor cfg ⟨none, wallet⟩ fetch).response.body.hasKey "error" = true ∧
     (sendWithSponsor cfg ⟨none, wallet⟩ fetch).providerCalls = 0) ∧
    ((signedTransactionGasless cfg ⟨none, wallet⟩ ext).response.status = 400 ∧
     (signedTransactionGasless cfg ⟨none, wallet⟩ ext).response.body.hasKey "error" = true ∧
     (signedTransactionGasless cfg ⟨none, wallet⟩ ext).trace = [Ev.respond]) :=
  ⟨⟨rfl, rfl, rfl⟩, ⟨rfl, rfl, rfl⟩⟩

/-- C10 (confirmed): on the managed-fee-payer route the body-field check runs
before any configuration check: whenever `serializedTransaction` is falsy the
response is the 400 missing-field error, whatever the configuration, so a
500 configuration error can only arise with the field present. -/
theorem gasless_field_check_first (cfg : Config) (req : GaslessReq) (ext : GaslessExt)
    (h : falsy req.serializedTransaction = true) :
    (signedTransactionGasless cfg req ext).response.status = 400 ∧
    (signedTransactionGasless cfg req ext).response.body.lookup "error" =
      some (Json.str "Missing serializedTransaction") := by
  unfold signedTransactionGasless
  rw [h]
  exact ⟨rfl, rfl⟩

/-- Witness for C10 at a concrete input: field absent and every
configuration value absent still yields the 400 missing-field error. -/
theorem gasless_field_check_first_witness :
    falsy (none : Option String) = true ∧
    ((signedTransactionGasless ⟨none, none, none, none⟩ ⟨none, none⟩ extAllOk).response.status = 400 ∧
     (signedTransactionGasless ⟨none, none, none, none⟩ ⟨none, none⟩ extAllOk).response.body.lookup "error" =
       some (Json.str "Missing serializedTransaction")) :=
  ⟨rfl, gasless_field_check_first ⟨none, none, none, none⟩ ⟨none, none⟩ extAllOk rfl⟩

/-- C5 (confirmed): on the managed-fee-payer route, with the transaction
field present, absent app credentials yield the credentials error, and with
credentials present an absent fee-payer wallet id independently yields the
distinct fee-payer error; both are 500 responses. -/
theorem gasless_distinct_config_errors (cfg : Config) (req : GaslessReq) (ext : GaslessExt)
    (hfield : falsy req.serializedTransaction = false) :
    ((envPresent cfg.privyAppId && envPresent cfg.privyAppSecret) = false →
      (signedTransactionGasless cfg req ext).response.status = 500 ∧
      (signedTransactionGasless cfg req ext).response.body.lookup "error" =
        some (Json.str "Privy credentials not configured")) ∧
    ((envPresent cfg.privyAppId && envPresent cfg.privyAppSecret) = true →
      envPresent cfg.privyFeePayerWalletId = false →
      (signedTransactionGasless cfg req ext).response.status = 500 ∧
      (signedTransactionGasless cfg req ext).response.body.lookup "error" =
        some (Json.str "Fee payer wallet ID not configured. Please set PRIVY_FEE_PAYER_WALLET_ID in your .env file")) := by
  constructor
  · intro hc
    unfold signedTransactionGasless
    rw [hfield, hc]
    exact ⟨rfl, rfl⟩
  · intro hc hf
    unfold signedTransactionGasless
    rw [hfield, hc, hf]
    exact ⟨rfl, rfl⟩

/-- Witness for C5 at concrete inputs: credentials absent reports the
credentials error; credentials present with fee payer absent reports the
fee-payer error. -/
theorem gasless_distinct_config_errors_witness :
    falsy (some "tx") = false ∧
    ((signedTransactionGasless ⟨none, none, none, none⟩ ⟨some "tx", none⟩ extAllOk).response.body.lookup "error" =
      some (Json.str "Privy credentials not configured")) ∧
    ((signedTransactionGasless ⟨some "a", some "s", none, none⟩ ⟨some "tx", none⟩ extAllOk).response.body.lookup "error" =
      some (Json.str "Fee payer wallet ID not configured. Please set PRIVY_FEE_PAYER_WALLET_ID in your .env file")) :=
  ⟨rfl,
   ((gasless_distinct_config_errors ⟨none, none, none, none⟩ ⟨some "tx", none⟩ extAllOk rfl).1 rfl).2,
   ((gasless_distinct_config_errors ⟨some "a", some "s", none, none⟩ ⟨some "tx", none⟩ extAllOk rfl).2 rfl rfl).2⟩

/-- C7 (confirmed): every 200 response of the managed-fee-payer route comes
from the full ordered run deserialize, co-sign, broadcast, confirmation
wait, respond; in particular the signature and explorer URL are sent only
after the confirmation wait has completed. -/
theorem gasless_success_trace (cfg : Config) (req : GaslessReq) (ext : GaslessExt)
    (h : (signedTransactionGasless cfg req ext).response.status = 200) :
    (signedTransactionGasless cfg req ext).trace =
      [Ev.deserialize, Ev.cosign, Ev.broadcast, Ev.confirmWait, Ev.respond] := by
  by_cases h1 : falsy req.serializedTransaction = true <;>
  by_cases h2 : (envPresent cfg.privyAppId && envPresent cfg.privyAppSecret) = true <;>
  by_cases h3 : envPresent cfg.privyFeePayerWalletId = true <;>
  rcases hd : ext.deserialize with m1 | u1 <;>
  rcases hc : ext.cosign with m2 | blob <;>
  rcases hb : ext.broadcast with m3 | sig <;>
  rcases hcf : ext.confirm with m4 | u2 <;>
  simp_all [signedTransactionGasless, gaslessCatch]

/-- Witness for C7 at a concrete input: a fully configured process with all
external steps succeeding responds 200 with the full ordered trace. -/
theorem gasless_success_trace_witness :
    (signedTransactionGasless cfgFull ⟨some "tx", none⟩ extAllOk).trace =
      [Ev.deserialize, Ev.cosign, Ev.broadcast, Ev.confirmWait, Ev.respond] :=
  gasless_success_trace cfgFull ⟨some "tx", none⟩ extAllOk rfl

/-- C9 (confirmed): the response of the managed-fee-payer route depends on
the configuration only through the boolean presence of the app id, app
secret and fee-payer wallet id, and through the resolved network name: two
configurations agreeing on those produce identical responses for every
request and every sequence of external outcomes. In particular no error
response can embed the secret values themselves; the `debug` object attached
by the catch path carries the presence booleans only (`debugFlags`). -/
theorem gasless_response_independent_of_secrets
    (cfg1 cfg2 : Config) (req : GaslessReq) (ext : GaslessExt)
    (h1 : envPresent cfg1.privyAppId = envPresent cfg2.privyAppId)
    (h2 : envPresent cfg1.privyAppSecret = envPresent cfg2.privyAppSecret)
    (h3 : envPresent cfg1.privyFeePayerWalletId = envPresent cfg2.privyFeePayerWalletId)
    (h4 : networkOf cfg1 = networkOf cfg2) :
    (signedTransactionGasless cfg1 req ext).response =
      (signedTransactionGasless cfg2 req ext).response := by
  unfold signedTransactionGasless gaslessCatch debugFlags
  rw [h1, h2, h3, h4]

/-- Witness for C9 at concrete inputs: two configurations with different
secret contents but the same presence flags produce identical error
responses (here, the deserialization step fails). -/
theorem gasless_response_independent_of_secrets_witness :
    (signedTransactionGasless ⟨some "a", some "secret-one", some "w", none⟩ ⟨some "tx", none⟩
        { extAllOk with deserialize := Except.error "bad blob" }).response =
      (signedTransactionGasless ⟨some "a", some "other-secret", some "w", none⟩ ⟨some "tx", none⟩
        { extAllOk with deserialize := Except.error "bad blob" }).response :=
  gasless_response_independent_of_secrets
    ⟨some "a", some "secret-one", some "w", none⟩
    ⟨some "a", some "other-secret", some "w", none⟩
    ⟨some "tx", none⟩
    { extAllOk with deserialize := Except.error "bad blob" }
    rfl rfl rfl rfl

/-- A fully configured process on the devnet network. -/
def cfgDevnet : Config :=
  { privyAppId := some "app-id"
    privyAppSecret := some "app-secret"
    privyFeePayerWalletId := some "wallet-id"
    solanaNetwork := some "devnet" }

/-- C1 counterexample: on the direct-sponsor route, with the provider app id
(and every other configuration value) absent and the transaction field
present, the handler still performs the provider fetch — one outbound call —
and does not return a 500 configuration error (here it even answers 200).
The route has no configuration check at all (src/index.js lines 37-106). -/
theorem sponsor_no_config_check_counterexample :
    envPresent (Config.privyAppId ⟨none, none, none, none⟩) = false ∧
    (sendWithSponsor ⟨none, none, none, none⟩ ⟨some "tx", none⟩ (FetchOutcome.ok "sig")).providerCalls = 1 ∧
    (sendWithSponsor ⟨none, none, none, none⟩ ⟨some "tx", none⟩ (FetchOutcome.ok "sig")).response.status = 200 :=
  ⟨rfl, rfl, rfl⟩

/-- C1 (corrected): only the managed-fee-payer route short-circuits on absent
configuration: with the transaction field present and the app credentials or
the fee-payer wallet id absent it answers 500 with an `error` key and makes
no provider or network call (no co-sign, broadcast or confirmation event in
the trace). The direct-sponsor route checks nothing: with its field present
it always makes exactly one provider call, whatever the configuration. -/
theorem config_shortcircuit_managed_only (cfg : Config) (req : GaslessReq)
    (ext : GaslessExt) (req2 : DirectReq) (fetch : FetchOutcome)
    (hfield : falsy req.serializedTransaction = false)
    (hfield2 : falsy req2.signedTransaction = false) :
    (((envPresent cfg.privyAppId && envPresent cfg.privyAppSecret) = false ∨
        envPresent cfg.privyFeePayerWalletId = false) →
      (signedTransactionGasless cfg req ext).response.status = 500 ∧
      (signedTransactionGasless cfg req ext).response.body.hasKey "error" = true ∧
      Ev.cosign ∉ (signedTransactionGasless cfg req ext).trace ∧
      Ev.broadcast ∉ (signedTransactionGasless cfg req ext).trace ∧
      Ev.confirmWait ∉ (signedTransactionGasless cfg req ext).trace) ∧
    (sendWithSponsor cfg req2 fetch).providerCalls = 1 := by
  constructor
  · intro hconf
    by_cases hc : (envPresent cfg.privyAppId && envPresent cfg.privyAppSecret) = true
    · have hf : envPresent cfg.privyFeePayerWalletId = false := by
        rcases hconf with h | h
        · rw [hc] at h
          exact absurd h (by decide)
        · exact h
      unfold signedTransactionGasless
      rw [hfield, hc, hf]
      exact ⟨rfl, rfl, show Ev.cosign ∉ [Ev.respond] by decide,
        show Ev.broadcast ∉ [Ev.respond] by decide,
        show Ev.confirmWait ∉ [Ev.respond] by decide⟩
    · have hc2 : (envPresent cfg.privyAppId && envPresent cfg.privyAppSecret) = false :=
        Bool.eq_false_iff.mpr hc
      unfold signedTransactionGasless
      rw [hfield, hc2]
      exact ⟨rfl, rfl, show Ev.cosign ∉ [Ev.respond] by decide,
        show Ev.broadcast ∉ [Ev.respond] by decide,
        show Ev.confirmWait ∉ [Ev.respond] by decide⟩
  · unfold sendWithSponsor
    rw [hfield2]
    cases fetch <;> rfl

/-- Witness for C1 (amended) at concrete inputs: with everything absent, the
managed route answers 500 without external events while the direct route
still makes its one provider call. -/
theorem config_shortcircuit_managed_only_witness :
    (signedTransactionGasless ⟨none, none, none, none⟩ ⟨some "tx", none⟩ extAllOk).response.status = 500 ∧
    Ev.cosign ∉ (signedTransactionGasless ⟨none, none, none, none⟩ ⟨some "tx", none⟩ extAllOk).trace ∧
    (sendWithSponsor ⟨none, none, none, none⟩ ⟨some "tx", none⟩ (FetchOutcome.ok "s")).providerCalls = 1 :=
  ⟨((config_shortcircuit_managed_only ⟨none, none, none, none⟩ ⟨some "tx", none⟩ extAllOk
      ⟨some "tx", none⟩ (FetchOutcome.ok "s") rfl rfl).1 (Or.inl rfl)).1,
   ((config_shortcircuit_managed_only ⟨none, none, none, none⟩ ⟨some "tx", none⟩ extAllOk
      ⟨some "tx", none⟩ (FetchOutcome.ok "s") rfl rfl).1 (Or.inl rfl)).2.2.1,
   (config_shortcircuit_managed_only ⟨none, none, none, none⟩ ⟨some "tx", none⟩ extAllOk
      ⟨some "tx", none⟩ (FetchOutcome.ok "s") rfl rfl).2⟩

/-- The explorer field of a success response body. -/
def explorerField (r : HttpResponse) : Option Json :=
  (r.body.lookup "data").bind (fun d => d.lookup "explorer")

/-- C4 counterexample: on the direct-sponsor route with the configured
network set to devnet, a successful submission returns an explorer URL with
no cluster query parameter, contradicting the claim that on both routes the
URL carries the parameter exactly when the network is the test network. -/
theorem explorer_cluster_counterexample :
    networkOf cfgDevnet = "devnet" ∧
    (sendWithSponsor cfgDevnet ⟨some "tx", none⟩ (FetchOutcome.ok "sig")).response.status = 200 ∧
    explorerField (sendWithSponsor cfgDevnet ⟨some "tx", none⟩ (FetchOutcome.ok "sig")).response =
      some (Json.str "https://solscan.io/tx/sig") ∧
    hasClusterParam "https://solscan.io/tx/sig" = false :=
  ⟨rfl, rfl, rfl, rfl⟩

/-- C4 (corrected): the managed-fee-payer route appends `?cluster=devnet` to
the explorer URL exactly when the resolved network differs from mainnet-beta;
the direct-sponsor route builds the bare URL and never appends a cluster
parameter, whatever the configured network. -/
theorem explorer_cluster_param (cfg : Config) (req : GaslessReq) (ext : GaslessExt)
    (req2 : DirectReq) (sig : String)
    (hfield : falsy req.serializedTransaction = false)
    (hcreds : (envPresent cfg.privyAppId && envPresent cfg.privyAppSecret) = true)
    (hfee : envPresent cfg.privyFeePayerWalletId = true)
    (hd : ext.deserialize = Except.ok ())
    (hc : ∃ b, ext.cosign = Except.ok b)
    (hb : ext.broadcast = Except.ok sig)
    (hcf : ext.confirm = Except.ok ())
    (hfield2 : falsy req2.signedTransaction = false) :
    explorerField (signedTransactionGasless cfg req ext).response =
      some (Json.str ("https://solscan.io/tx/" ++ sig ++
        (if networkOf cfg != "mainnet-beta" then "?cluster=devnet" else ""))) ∧
    explorerField (sendWithSponsor cfg req2 (FetchOutcome.ok sig)).response =
      some (Json.str ("https://solscan.io/tx/" ++ sig)) := by
  obtain ⟨b, hcob⟩ := hc
  constructor
  · unfold signedTransactionGasless explorerField
    rw [hfield, hcreds, hfee, hd, hcob, hb, hcf]
    rfl
  · unfold sendWithSponsor explorerField
    rw [hfield2]
    rfl

/-- Witness for C4 (amended) at concrete inputs: on devnet the managed route
URL carries the cluster parameter and the direct route URL does not. -/
theorem explorer_cluster_param_witness :
    explorerField (signedTransactionGasless cfgDevnet ⟨some "tx", none⟩ extAllOk).response =
      some (Json.str "https://solscan.io/tx/sig123?cluster=devnet") ∧
    explorerField (sendWithSponsor cfgDevnet ⟨some "tx", none⟩ (FetchOutcome.ok "sig123")).response =
      some (Json.str "https://solscan.io/tx/sig123") := by
  have h := explorer_cluster_param cfgDevnet ⟨some "tx", none⟩ extAllOk ⟨some "tx", none⟩ "sig123"
    rfl rfl rfl rfl ⟨"signedBlob", rfl⟩ rfl rfl rfl
  exact ⟨h.1.trans (by rfl), h.2.trans (by rfl)⟩

/-- C6 (confirmed): on the direct-sponsor route, each provider failure kind —
non-2xx HTTP status, non-JSON body (the parse exception message is modelled
opaquely, as it comes from the JavaScript runtime), or a JSON-RPC error
object — yields a 500 response with an `error` key; for the HTTP and RPC
cases the message carries the provider status and text verbatim; exactly one
provider call is made (no local retry); and the thrown message appears in
the server-side error log. -/
theorem sponsor_provider_failure_500 (cfg : Config) (req : DirectReq)
    (hfield : falsy req.signedTransaction = false) :
    (∀ s t,
      (sendWithSponsor cfg req (FetchOutcome.httpError s t)).response.status = 500 ∧
      (sendWithSponsor cfg req (FetchOutcome.httpError s t)).response.body.lookup "error" =
        some (Json.str ("Privy RPC error: " ++ toString s ++ " " ++ t)) ∧
      (sendWithSponsor cfg req (FetchOutcome.httpError s t)).providerCalls = 1 ∧
      ("[Error] " ++ ("Privy RPC error: " ++ toString s ++ " " ++ t)) ∈
        (sendWithSponsor cfg req (FetchOutcome.httpError s t)).logs) ∧
    (∀ m,
      (sendWithSponsor cfg req (FetchOutcome.nonJson m)).response.status = 500 ∧
      (sendWithSponsor cfg req (FetchOutcome.nonJson m)).response.body.hasKey "error" = true ∧
      (sendWithSponsor cfg req (FetchOutcome.nonJson m)).providerCalls = 1 ∧
      ("[Error] " ++ m) ∈ (sendWithSponsor cfg req (FetchOutcome.nonJson m)).logs) ∧
    (∀ e,
      (sendWithSponsor cfg req (FetchOutcome.rpcError e)).response.status = 500 ∧
      (sendWithSponsor cfg req (FetchOutcome.rpcError e)).response.body.lookup "error" =
        some (Json.str ("RPC error: " ++ e)) ∧
      (sendWithSponsor cfg req (FetchOutcome.rpcError e)).providerCalls = 1 ∧
      ("[Error] " ++ ("RPC error: " ++ e)) ∈ (sendWithSponsor cfg req (FetchOutcome.rpcError e)).logs) := by
  refine ⟨fun s t => ?_, fun m => ?_, fun e => ?_⟩
  · have hne : ("Privy RPC error: " ++ toString s ++ " " ++ t).isEmpty = false :=
      isEmpty_append_false _ t (isEmpty_append_false _ " "
        (isEmpty_append_false "Privy RPC error: " (toString s) (by decide)))
    unfold sendWithSponsor
    rw [hfield]
    refine ⟨rfl, ?_, rfl, ?_⟩
    · simp [Json.lookup, jGet, orDefault_nonempty _ _ hne]
    · simp
  · unfold sendWithSponsor
    rw [hfield]
    exact ⟨rfl, rfl, rfl, by simp⟩
  · have hne : ("RPC error: " ++ e).isEmpty = false :=
      isEmpty_append_false "RPC error: " e (by decide)
    unfold sendWithSponsor
    rw [hfield]
    refine ⟨rfl, ?_, rfl, ?_⟩
    · simp [Json.lookup, jGet, orDefault_nonempty _ _ hne]
    · simp

/-- Witness for C6 at concrete inputs: a 429 HTTP failure and an RPC-level
error both produce 500 responses carrying the provider text. -/
theorem sponsor_provider_failure_500_witness :
    (sendWithSponsor cfgFull ⟨some "tx", none⟩ (FetchOutcome.httpError 429 "rate limited")).response.status = 500 ∧
    (sendWithSponsor cfgFull ⟨some "tx", none⟩ (FetchOutcome.rpcError "already processed")).response.body.lookup "error" =
      some (Json.str ("RPC error: " ++ "already processed")) ∧
    (sendWithSponsor cfgFull ⟨some "tx", none⟩ (FetchOutcome.nonJson "")).providerCalls = 1 :=
  ⟨((sponsor_provider_failure_500 cfgFull ⟨some "tx", none⟩ rfl).1 429 "rate limited").1,
   ((sponsor_provider_failure_500 cfgFull ⟨some "tx", none⟩ rfl).2.2 "already processed").2.1,
   ((sponsor_provider_failure_500 cfgFull ⟨some "tx", none⟩ rfl).2.1 "").2.2.1⟩

/-- If every sub-call from index `i0` on succeeds, the sequential batch run
returns all signatures in submission order and makes one call per item. -/
theorem runBatch_all_ok (oracle : Nat → Except String String) :
    ∀ (txs : List String) (i0 : Nat),
      (∀ j, j < txs.length → ∃ s, oracle (i0 + j) = Except.ok s) →
      ∃ sigs, runBatch txs i0 oracle = (Except.ok sigs, txs.length) ∧
        sigs.length = txs.length ∧
        ∀ j (hj : j < sigs.length), oracle (i0 + j) = Except.ok (sigs.get ⟨j, hj⟩) := by
  intro txs
  induction txs with
  | nil =>
    intro i0 _
    exact ⟨[], rfl, rfl, fun j hj => absurd hj (by simp)⟩
  | cons tx rest ih =>
    intro i0 hok
    obtain ⟨s0, hs0⟩ := hok 0 (by simp)
    have hs0i : oracle i0 = Except.ok s0 := by simpa using hs0
    obtain ⟨sigs, hrun, hlen, hvals⟩ := ih (i0 + 1) (fun j hj => by
      have heq : i0 + 1 + j = i0 + (j + 1) := by omega
      rw [heq]
      exact hok (j + 1) (by simpa using Nat.succ_lt_succ hj))
    refine ⟨s0 :: sigs, ?_, by simp [hlen], ?_⟩
    · simp only [runBatch]
      rw [hs0i, hrun]
      rfl
    · intro j hj
      cases j with
      | zero => simpa using hs0i
      | succ k =>
        have hk : k < sigs.length := by simpa using Nat.lt_of_succ_lt_succ hj
        have hv := hvals k hk
        have heq : i0 + 1 + k = i0 + (k + 1) := by omega
        rw [heq] at hv
        simpa using hv

/-- If the sub-call at offset `k` is the first to fail, the sequential batch
run stops there: it reports that index and message and has made exactly
`k + 1` calls (none for the later items). -/
theorem runBatch_first_error (oracle : Nat → Except String String) :
    ∀ (txs : List String) (i0 k : Nat) (msg : String),
      k < txs.length →
      oracle (i0 + k) = Except.error msg →
      (∀ j, j < k → ∃ s, oracle (i0 + j) = Except.ok s) →
      runBatch txs i0 oracle = (Except.error (i0 + k, msg), k + 1) := by
  intro txs
  induction txs with
  | nil =>
    intro i0 k msg hk
    exact absurd hk (by simp)
  | cons tx rest ih =>
    intro i0 k msg hk herr hok
    cases k with
    | zero =>
      have herr0 : oracle i0 = Except.error msg := by simpa using herr
      simp only [runBatch]
      rw [herr0]
      simp
    | succ k2 =>
      obtain ⟨s0, hs0⟩ := hok 0 (Nat.succ_pos k2)
      have hs0i : oracle i0 = Except.ok s0 := by simpa using hs0
      have hrec := ih (i0 + 1) k2 msg (by simpa using Nat.lt_of_succ_lt_succ hk)
        (by
          have heq : i0 + 1 + k2 = i0 + (k2 + 1) := by omega
          rw [heq]
          exact herr)
        (fun j hj => by
          have heq : i0 + 1 + j = i0 + (j + 1) := by omega
          rw [heq]
          exact hok (j + 1) (Nat.succ_lt_succ hj))
      simp only [runBatch]
      rw [hs0i, hrec]
      have heq2 : i0 + 1 + k2 = i0 + (k2 + 1) := by omega
      simp [heq2]

/-- C8 (confirmed against the spec model): the batch variant rejects an
absent or empty `signedTx` list with 400; for a non-empty list, if every
sub-call succeeds, the 200 response carries exactly one signature per input
in submission order with `count` equal to the list length and one provider
call per item; if the sub-call at index k (0-based) is the first to fail,
the whole batch aborts after k+1 calls with a single 500 error naming the
1-indexed failing item and its message, and the body carries no signatures
at all (`data` absent). -/
theorem batch_all_or_nothing (txs : List String) (oracle : Nat → Except String String)
    (hne : txs ≠ []) :
    (batchGasless none oracle).response.status = 400 ∧
    (batchGasless (some []) oracle).response.status = 400 ∧
    ((∀ j, j < txs.length → ∃ s, oracle j = Except.ok s) →
      ∃ sigs : List String, (batchGasless (some txs) oracle).response.status = 200 ∧
        (batchGasless (some txs) oracle).response.body.lookup "data" =
          some (Json.obj
            [ ("signatures", Json.arr (sigs.map Json.str))
            , ("count", Json.num sigs.length)
            , ("message", Json.str "Batch sent with sponsorship") ]) ∧
        sigs.length = txs.length ∧
        (∀ j (hj : j < sigs.length), oracle j = Except.ok (sigs.get ⟨j, hj⟩)) ∧
        (batchGasless (some txs) oracle).providerCalls = txs.length) ∧
    (∀ k msg, k < txs.length → oracle k = Except.error msg →
      (∀ j, j < k → ∃ s, oracle j = Except.ok s) →
      (batchGasless (some txs) oracle).response.status = 500 ∧
      (batchGasless (some txs) oracle).response.body.lookup "error" =
        some (Json.str ("Transaction " ++ toString (k + 1) ++ " failed: " ++ msg)) ∧
      (batchGasless (some txs) oracle).response.body.lookup "data" = none ∧
      (batchGasless (some txs) oracle).providerCalls = k + 1) := by
  obtain ⟨tx, rest, rfl⟩ : ∃ tx rest, txs = tx :: rest := by
    cases txs with
    | nil => exact absurd rfl hne
    | cons a b => exact ⟨a, b, rfl⟩
  refine ⟨rfl, rfl, ?_, ?_⟩
  · intro hok
    obtain ⟨sigs, hrun, hlen, hvals⟩ :=
      runBatch_all_ok oracle (tx :: rest) 0 (fun j hj => by simpa using hok j hj)
    refine ⟨sigs, ?_⟩
    simp only [batchGasless]
    rw [hrun]
    exact ⟨rfl, rfl, hlen, fun j hj => by simpa using hvals j hj, rfl⟩
  · intro k msg hk herr hok
    have hrun := runBatch_first_error oracle (tx :: rest) 0 k msg hk
      (by simpa using herr) (fun j hj => by simpa using hok j hj)
    have h0 : 0 + k = k := Nat.zero_add k
    rw [h0] at hrun
    simp only [batchGasless]
    rw [hrun]
    exact ⟨rfl, rfl, rfl, rfl⟩

/-- A concrete batch oracle whose second sub-call fails. -/
def batchOracleFail (i : Nat) : Except String String :=
  if i = 1 then Except.error "boom" else Except.ok ("s" ++ toString i)

/-- Witness for C8 at concrete inputs: a three-item batch whose second item
fails aborts with the single error naming item 2, no signatures in the body,
and exactly two sub-calls made. -/
theorem batch_all_or_nothing_witness :
    (batchGasless (some ["a", "b", "c"]) batchOracleFail).response.status = 500 ∧
    (batchGasless (some ["a", "b", "c"]) batchOracleFail).response.body.lookup "error" =
      some (Json.str "Transaction 2 failed: boom") ∧
    (batchGasless (some ["a", "b", "c"]) batchOracleFail).response.body.lookup "data" = none ∧
    (batchGasless (some ["a", "b", "c"]) batchOracleFail).providerCalls = 2 := by
  have h := (batch_all_or_nothing ["a", "b", "c"] batchOracleFail (by simp)).2.2.2
    1 "boom" (by decide) rfl
    (fun j hj => by
      have hj0 : j = 0 := by omega
      subst hj0
      exact ⟨"s" ++ toString 0, rfl⟩)
  exact ⟨h.1, h.2.1.trans (by rfl), h.2.2.1, h.2.2.2⟩
